import Mathlib

/-!
Shallow embedding of `aws-fastly-http-client` (`src/src/lib.rs`), an HTTP
transport bridge adapting Fastly's poll-driven pending-request primitive to
the aws-smithy asynchronous HTTP connector interface.

Bytes are modelled as `List Nat`; library boundary types (fastly `Body`,
smithy `SdkBody`, the http/smithy request and response shapes) are modelled
per their documented structure, with a boolean flag standing for whether the
fallible library conversions (`try_into_http1x`, `HttpResponse::try_from`)
succeed on the value. A Rust panic (an `unwrap` on `None`/`Err`) is modelled
as an `Option` result being `none`.
-/

abbrev Bytes := List Nat

/-- Fastly `Body`: an in-memory byte buffer (`fastly::Body`). -/
structure Body where
  data : Bytes
deriving DecidableEq, Repr

/-- `Body::new()`: an empty body. -/
def Body.new : Body := ⟨[]⟩

/-- `Body::from(bytes)`. -/
def Body.fromBytes (d : Bytes) : Body := ⟨d⟩

/-- `Body::into_bytes()`. -/
def Body.into_bytes (b : Body) : Bytes := b.data

/-- Smithy `SdkBody`: either an in-memory buffered byte body or a streaming
body whose underlying bytes are not synchronously available. -/
inductive SdkBody where
  | buffered (data : Bytes)
  | streaming (data : Bytes)
deriving DecidableEq, Repr

/-- `SdkBody::bytes()`: returns the bytes when the body data is available
in memory, and `None` for a streaming body. -/
def SdkBody.bytes : SdkBody → Option Bytes
  | .buffered d => some d
  | .streaming _ => none

/-- The bytes an abstract body semantically carries (buffered or behind the
stream); used only to state materialization properties. -/
def SdkBody.contentBytes : SdkBody → Bytes
  | .buffered d => d
  | .streaming d => d

/-- The closure `to_fastly_body` in `from_http_request`
(`src/src/lib.rs:90`): `|body: SdkBody| body.bytes().map(Body::from).unwrap_or(Body::new())`. -/
def to_fastly_body (body : SdkBody) : Body :=
  ((body.bytes).map Body.fromBytes).getD Body.new

/-- The closure `to_sdk_body` in `into_http_response`
(`src/src/lib.rs:102`): `|body: Body| SdkBody::from(body.into_bytes())`. -/
def to_sdk_body (body : Body) : SdkBody :=
  .buffered body.into_bytes

/-- `fastly::http::request::SendErrorCause`: the structured root cause of a
send failure. The variants named by the match in `into_connector_error` are
listed explicitly; `bufferSizeExceeded` and `unlisted` model the remaining
and any future variants of the library enum, all of which the source's
wildcard arm covers. Payload-carrying variants (`DnsError { .. }`,
`TlsAlertReceived { .. }`) carry an abstract payload. -/
inductive SendErrorCause where
  | DnsError (details : Nat)
  | ConnectionRefused
  | ConnectionTerminated
  | ConnectionLimitReached
  | TlsProtocolError
  | TlsAlertReceived (alert : Nat)
  | TlsConfigurationError
  | HttpIncompleteResponse
  | HttpResponseHeaderSectionTooLarge
  | HttpResponseBodyTooLarge
  | HttpProtocolError
  | DnsTimeout
  | ConnectionTimeout
  | HttpResponseTimeout
  | bufferSizeExceeded
  | unlisted (tag : Nat)
deriving DecidableEq, Repr

/-- `fastly::http::request::SendError`: a structured error with one root
cause (`error.root_cause()`). -/
structure SendError where
  root_cause : SendErrorCause
deriving DecidableEq, Repr

/-- The source of a `ConnectorError`: the boxed error value passed to the
`ConnectorError::io/timeout/other` constructors. -/
inductive ErrorSource where
  | send (e : SendError)
  | recv
deriving DecidableEq, Repr

/-- Smithy `ConnectorError`, by constructor used in the source:
`ConnectorError::io`, `ConnectorError::timeout`, `ConnectorError::other`. -/
inductive ConnectorError where
  | ioError (source : ErrorSource)
  | timeoutError (source : ErrorSource)
  | otherError (source : ErrorSource) (hint : Option Nat)
deriving DecidableEq, Repr

/-- The three-way classification bucket of a `ConnectorError`. -/
inductive ErrorClass where
  | IoFailure
  | Timeout
  | Other
deriving DecidableEq, Repr

/-- The bucket a `ConnectorError` value falls in. -/
def ConnectorError.eclass : ConnectorError → ErrorClass
  | .ioError _ => .IoFailure
  | .timeoutError _ => .Timeout
  | .otherError _ _ => .Other

/-- `into_connector_error` (`src/src/lib.rs:106-124`): classify a
`SendError` by its root cause into an I/O, timeout, or other
`ConnectorError`, carrying the error as source. -/
def into_connector_error (error : SendError) : ConnectorError :=
  match error.root_cause with
  | .DnsError _
  | .ConnectionRefused
  | .ConnectionTerminated
  | .ConnectionLimitReached
  | .TlsProtocolError
  | .TlsAlertReceived _
  | .TlsConfigurationError
  | .HttpIncompleteResponse
  | .HttpResponseHeaderSectionTooLarge
  | .HttpResponseBodyTooLarge
  | .HttpProtocolError => .ioError (.send error)
  | .DnsTimeout
  | .ConnectionTimeout
  | .HttpResponseTimeout => .timeoutError (.send error)
  | _ => .otherError (.send error) none

/-- Smithy `HttpRequest` (aws-smithy orchestrator request): method, URI, an
order-preserving header multimap, and a body. `http1xCompatible` models
whether the underlying wire representation can be decomposed by
`try_into_http1x` into method/URI/headers/body. -/
structure HttpRequest (B : Type) where
  method : String
  uri : String
  headers : List (String × String)
  body : B
  http1xCompatible : Bool
deriving DecidableEq, Repr

/-- `http::Request` (the http1x request shape produced by
`try_into_http1x`). -/
structure Http1xRequest (B : Type) where
  method : String
  uri : String
  headers : List (String × String)
  body : B
deriving DecidableEq, Repr

/-- `HttpRequest::map(f)`: map the body, leaving method, URI and headers
unchanged. -/
def HttpRequest.map {B B' : Type} (f : B → B') (r : HttpRequest B) : HttpRequest B' :=
  { method := r.method, uri := r.uri, headers := r.headers, body := f r.body,
    http1xCompatible := r.http1xCompatible }

/-- `HttpRequest::try_into_http1x()`: decompose the request into its http1x
form; fails exactly when the wire representation is not decomposable. -/
def HttpRequest.try_into_http1x {B : Type} (r : HttpRequest B) : Option (Http1xRequest B) :=
  if r.http1xCompatible then
    some { method := r.method, uri := r.uri, headers := r.headers, body := r.body }
  else none

/-- `fastly::Request`: the sandbox's native request. -/
structure Request where
  method : String
  uri : String
  headers : List (String × String)
  body : Body
deriving DecidableEq, Repr

/-- `Request::from(http::Request<Body>)`: component-wise repackaging. -/
def Request.ofHttp1x (r : Http1xRequest Body) : Request :=
  { method := r.method, uri := r.uri, headers := r.headers, body := r.body }

/-- `FromHttpRequest::from_http_request` (`src/src/lib.rs:88-98`):
`request.map(to_fastly_body).try_into_http1x().map(Request::from).unwrap()`.
A `none` result models the `unwrap` panic on a non-decomposable request. -/
def Request.from_http_request (request : HttpRequest SdkBody) : Option Request :=
  ((request.map to_fastly_body).try_into_http1x).map Request.ofHttp1x

/-- `fastly::Response`: the sandbox's native response. `convertible` models
whether `HttpResponse::try_from` succeeds on its http1x form. -/
structure Response where
  status : Nat
  headers : List (String × String)
  body : Body
  convertible : Bool
deriving DecidableEq, Repr

/-- Smithy `HttpResponse`: status, header multimap, body. -/
structure HttpResponse where
  status : Nat
  headers : List (String × String)
  body : SdkBody
deriving DecidableEq, Repr

/-- `into_http_response` (`src/src/lib.rs:100-104`): convert the native
response to `http::Response<Body>`, map the body with `to_sdk_body`, then
`HttpResponse::try_from(..).unwrap()`; `none` models the `unwrap` panic. -/
def into_http_response (response : Response) : Option HttpResponse :=
  if response.convertible then
    some { status := response.status, headers := response.headers,
           body := to_sdk_body response.body }
  else none

/-- `fastly::http::request::PollResult`: one poll of a pending request
either yields the terminal result or returns the handle to poll again. -/
inductive PollResult (H : Type) where
  | Done (result : Except SendError Response)
  | Pending (pending : H)

/-- `ResponseFuture` (`src/src/lib.rs:126-128`): holds the pending request
handle; the slot is emptied by each poll and refilled only when the poll
reports not-yet. -/
structure ResponseFuture (H : Type) where
  pending_request : Option H

/-- `ResponseFuture::from(pending_request)` (`src/src/lib.rs:130-136`). -/
def ResponseFuture.ofPending {H : Type} (pending : H) : ResponseFuture H :=
  { pending_request := some pending }

/-- `std::task::Poll`: the output of one `Future::poll` invocation. -/
inductive TaskPoll (α : Type) where
  | Ready (value : α)
  | Pending

/-- The observable effect of one `ResponseFuture::poll` invocation: the
returned `Poll`, the resulting future state, and the delay in milliseconds
of the timer armed to request rescheduling, if one was armed. -/
structure StepOutcome (H : Type) where
  output : TaskPoll (Except SendError Response)
  state : ResponseFuture H
  timerMillis : Option Nat

/-- `Future::poll for ResponseFuture` (`src/src/lib.rs:138-160`),
parameterised by the sandbox's poll primitive `pollH`. The held handle is
taken (`take().unwrap()` — `none` models the panic on an empty slot) and
polled once; `Done` yields `Ready` with the carried result (slot left
empty), `Pending` stores the returned handle back, arms a 5 ms timer that
wakes the task, and suspends. -/
def ResponseFuture.poll {H : Type} (pollH : H → PollResult H) (f : ResponseFuture H) :
    Option (StepOutcome H) :=
  match f.pending_request with
  | none => none
  | some pending =>
    match pollH pending with
    | .Done result =>
      some { output := .Ready result, state := { pending_request := none },
             timerMillis := none }
    | .Pending pending' =>
      some { output := .Pending, state := { pending_request := some pending' },
             timerMillis := some 5 }

/-- Drive a `ResponseFuture` to completion under an executor that re-polls
it each time its timer requests rescheduling, with `fuel` bounding the
number of polls. Returns the terminal result together with the number of
reschedules (re-polls after the first) that were needed; `none` models
either fuel exhaustion or a panic. -/
def ResponseFuture.drive {H : Type} (pollH : H → PollResult H) :
    Nat → ResponseFuture H → Option (Except SendError Response × Nat)
  | 0, _ => none
  | fuel + 1, f =>
    match f.poll pollH with
    | none => none
    | some step =>
      match step.output with
      | .Ready r => some (r, 0)
      | .Pending =>
        (ResponseFuture.drive pollH fuel step.state).map (fun p => (p.1, p.2 + 1))

/-- A fake pending handle that reports not-yet exactly `n` times and then
completes with `result`: the handle is its remaining not-yet count. -/
def countdownPoll (result : Except SendError Response) : Nat → PollResult Nat
  | 0 => .Done result
  | n + 1 => .Pending n

/-- `fastly::Backend`: an immutable handle naming the upstream destination. -/
structure Backend where
  name : String
deriving DecidableEq, Repr

/-- `FastlyHttpConnector` (`src/src/lib.rs:47-50`): holds the backend
identity. -/
structure FastlyHttpConnector where
  backend : Backend
deriving DecidableEq, Repr

/-- `FastlyHttpClient` (`src/src/lib.rs:24-27`): the client facade, holding
the backend identity. -/
structure FastlyHttpClient where
  backend : Backend
deriving DecidableEq, Repr

/-- `aws_smithy_runtime_api` `HttpConnectorSettings`: opaque to this crate. -/
structure HttpConnectorSettings where
  payload : Nat
deriving DecidableEq, Repr

/-- `aws_smithy_runtime_api` `RuntimeComponents`: opaque to this crate. -/
structure RuntimeComponents where
  payload : Nat
deriving DecidableEq, Repr

/-- `HttpClient::http_connector for FastlyHttpClient`
(`src/src/lib.rs:37-45`): both parameters are ignored; a fresh connector is
built from a clone of the facade's backend. -/
def FastlyHttpClient.http_connector (client : FastlyHttpClient)
    (_settings : HttpConnectorSettings) (_components : RuntimeComponents) :
    FastlyHttpConnector :=
  { backend := client.backend }

/-- `Request::send_async(backend)` outcome at the sandbox boundary: a
pending handle, or an immediate send failure. -/
inductive SendAsyncResult (H : Type) where
  | ok (pending : H)
  | err (e : SendError)

/-- The future returned by `FastlyHttpConnector::call`: either
`HttpConnectorFuture::ready` with an immediate classified error (no poll
bridge is built), or the poll-bridge-driven path. -/
inductive CallFuture (H : Type) where
  | ready (result : Except ConnectorError HttpResponse)
  | bridged (future : ResponseFuture H)

/-- `HttpConnector::call for FastlyHttpConnector` (`src/src/lib.rs:58-81`),
parameterised by the sandbox's `send_async` primitive. The request is
converted (`none` propagates the conversion panic); a synchronous send
failure returns `HttpConnectorFuture::ready` with the classified error,
otherwise a `ResponseFuture` is built around the pending handle. -/
def FastlyHttpConnector.call {H : Type} (send_async : Request → Backend → SendAsyncResult H)
    (conn : FastlyHttpConnector) (request : HttpRequest SdkBody) :
    Option (CallFuture H) :=
  match Request.from_http_request request with
  | none => none
  | some req =>
    match send_async req conn.backend with
    | .err error => some (.ready (.error (into_connector_error error)))
    | .ok pending_request => some (.bridged (ResponseFuture.ofPending pending_request))

/-- Run a `CallFuture` to its caller-visible result, counting the polls
issued to the sandbox handle. The ready path involves no polls; the bridged
path drives the `ResponseFuture` (`fuel`-bounded) and then applies
`map_ok(into_http_response)` and `map_err(into_connector_error)` as the
spawned task does (`src/src/lib.rs:67-76`); `none` models a panic or fuel
exhaustion. -/
def CallFuture.run {H : Type} (pollH : H → PollResult H) (fuel : Nat) :
    CallFuture H → Option (Except ConnectorError HttpResponse × Nat)
  | .ready r => some (r, 0)
  | .bridged f =>
    match f.drive pollH fuel with
    | none => none
    | some (res, resched) =>
      match res with
      | .ok resp =>
        match into_http_response resp with
        | none => none
        | some out => some (.ok out, resched + 1)
      | .error error => some (.error (into_connector_error error), resched + 1)

/-- The outcome of awaiting the `oneshot` receiver: the sent value, or a
`RecvError` because the sender was dropped without sending. -/
inductive RecvResult (α : Type) where
  | ok (value : α)
  | err

/-- The caller-visible future body (`src/src/lib.rs:78-80`):
`rx.await.unwrap_or_else(|e| Err(ConnectorError::io(Box::new(e))))`. -/
def awaitConnectorResult (r : RecvResult (Except ConnectorError HttpResponse)) :
    Except ConnectorError HttpResponse :=
  match r with
  | .ok v => v
  | .err => .error (.ioError .recv)

/-- C1: Poll Bridge step behaviour — each poll of the bridge performs one
poll of the held handle; completion yields `Ready` with the carried result,
not-yet stores the returned handle back, arms a 5 ms rescheduling timer and
suspends; a fake handle reporting not-yet exactly N times then done yields
the carried result after exactly N reschedules. -/
theorem c1_poll_bridge_step_and_termination :
    (∀ (H : Type) (pollH : H → PollResult H) (h : H) (result : Except SendError Response),
        pollH h = .Done result →
        ResponseFuture.poll pollH ⟨some h⟩ =
          some ⟨.Ready result, ⟨none⟩, none⟩)
    ∧ (∀ (H : Type) (pollH : H → PollResult H) (h h' : H),
        pollH h = .Pending h' →
        ResponseFuture.poll pollH ⟨some h⟩ =
          some ⟨.Pending, ⟨some h'⟩, some 5⟩)
    ∧ (∀ (N : Nat) (result : Except SendError Response),
        ResponseFuture.drive (countdownPoll result) (N + 1) ⟨some N⟩ = some (result, N)) := by
  refine ⟨?_, ?_, ?_⟩
  · intro H pollH h result hp
    simp [ResponseFuture.poll, hp]
  · intro H pollH h h' hp
    simp [ResponseFuture.poll, hp]
  · intro N result
    induction N with
    | zero => simp [ResponseFuture.drive, ResponseFuture.poll, countdownPoll]
    | succ n ih =>
        have hstep : ResponseFuture.drive (countdownPoll result) (n + 1 + 1) ⟨some (n + 1)⟩ =
            (ResponseFuture.drive (countdownPoll result) (n + 1) ⟨some n⟩).map
              (fun p => (p.1, p.2 + 1)) := rfl
        rw [hstep, ih]
        rfl

/-- Witness for C1 at concrete inputs: a handle completing at once, a handle
reporting not-yet once, and a countdown handle with N = 2. -/
theorem c1_poll_bridge_witness :
    ResponseFuture.poll (fun _ : Unit => PollResult.Done (.error ⟨.ConnectionRefused⟩)) ⟨some ()⟩ =
      some ⟨.Ready (.error ⟨.ConnectionRefused⟩), ⟨none⟩, none⟩
    ∧ ResponseFuture.poll (countdownPoll (.error ⟨.ConnectionRefused⟩)) ⟨some 1⟩ =
      some ⟨.Pending, ⟨some 0⟩, some 5⟩
    ∧ ResponseFuture.drive (countdownPoll (.error ⟨.ConnectionRefused⟩)) 3 ⟨some 2⟩ =
      some (.error ⟨.ConnectionRefused⟩, 2) :=
  ⟨c1_poll_bridge_step_and_termination.1 Unit _ () _ rfl,
   c1_poll_bridge_step_and_termination.2.1 Nat _ 1 0 rfl,
   c1_poll_bridge_step_and_termination.2.2 2 _⟩

/-- C2: the error classifier is total over the three buckets and matches the
fixed table: the listed connection/TLS/protocol/size causes classify as
I/O, the three timeout-flavoured causes classify as timeout, and every
remaining cause (buffer-size-exceeded and any unlisted tag) classifies as
other. -/
theorem c2_classifier_total_and_matches_table :
    (∀ e : SendError,
        (into_connector_error e).eclass = .IoFailure ∨
        (into_connector_error e).eclass = .Timeout ∨
        (into_connector_error e).eclass = .Other)
    ∧ (∀ d, (into_connector_error ⟨.DnsError d⟩).eclass = .IoFailure)
    ∧ (into_connector_error ⟨.ConnectionRefused⟩).eclass = .IoFailure
    ∧ (into_connector_error ⟨.ConnectionTerminated⟩).eclass = .IoFailure
    ∧ (into_connector_error ⟨.ConnectionLimitReached⟩).eclass = .IoFailure
    ∧ (into_connector_error ⟨.TlsProtocolError⟩).eclass = .IoFailure
    ∧ (∀ a, (into_connector_error ⟨.TlsAlertReceived a⟩).eclass = .IoFailure)
    ∧ (into_connector_error ⟨.TlsConfigurationError⟩).eclass = .IoFailure
    ∧ (into_connector_error ⟨.HttpIncompleteResponse⟩).eclass = .IoFailure
    ∧ (into_connector_error ⟨.HttpResponseHeaderSectionTooLarge⟩).eclass = .IoFailure
    ∧ (into_connector_error ⟨.HttpResponseBodyTooLarge⟩).eclass = .IoFailure
    ∧ (into_connector_error ⟨.HttpProtocolError⟩).eclass = .IoFailure
    ∧ (into_connector_error ⟨.DnsTimeout⟩).eclass = .Timeout
    ∧ (into_connector_error ⟨.ConnectionTimeout⟩).eclass = .Timeout
    ∧ (into_connector_error ⟨.HttpResponseTimeout⟩).eclass = .Timeout
    ∧ (into_connector_error ⟨.bufferSizeExceeded⟩).eclass = .Other
    ∧ (∀ tag, (into_connector_error ⟨.unlisted tag⟩).eclass = .Other) := by
  refine ⟨?_, ?_, rfl, rfl, rfl, rfl, ?_, rfl, rfl, rfl, rfl, rfl, rfl, rfl, rfl, rfl, ?_⟩
  · intro e
    obtain ⟨c⟩ := e
    cases c <;> simp [into_connector_error, ConnectorError.eclass]
  · intro d; rfl
  · intro a; rfl
  · intro tag; rfl

/-- C4: body round trip — converting a buffered byte body to the native
body and back reproduces the original bytes exactly; the empty body round
trips to the empty body. -/
theorem c4_body_round_trip :
    (∀ d : Bytes, d ≠ [] →
        to_sdk_body (to_fastly_body (.buffered d)) = .buffered d)
    ∧ to_sdk_body (to_fastly_body (.buffered [])) = .buffered [] :=
  ⟨fun _ _ => rfl, rfl⟩

/-- Witness for C4 at the concrete non-empty body `[1, 2]`. -/
theorem c4_body_round_trip_witness :
    [1, 2] ≠ ([] : Bytes)
    ∧ to_sdk_body (to_fastly_body (.buffered [1, 2])) = .buffered [1, 2] :=
  ⟨by decide, c4_body_round_trip.1 [1, 2] (by decide)⟩

/-- C5 counterexample: the streaming body carrying byte `[1]` is converted
to an empty native body, so `to_fastly_body` does not materialize a
streaming body's bytes as the claim states. -/
theorem c5_streaming_not_materialized_counterexample :
    (to_fastly_body (SdkBody.streaming [1])).into_bytes ≠
      (SdkBody.streaming [1]).contentBytes := by
  decide

/-- C5 (amended): if the abstract body's bytes are available in memory,
`to_fastly_body` wraps exactly those bytes as a native byte body; if they
are not (a streaming body), it yields an empty native body; it never
partially drains — the result carries all the content bytes or none. -/
theorem c5_to_native_available_or_empty :
    ∀ b : SdkBody,
      (∀ d, b.bytes = some d → to_fastly_body b = Body.fromBytes d)
      ∧ (b.bytes = none → to_fastly_body b = Body.new)
      ∧ ((to_fastly_body b).into_bytes = b.contentBytes ∨
          (to_fastly_body b).into_bytes = []) := by
  intro b
  cases b <;>
    simp [to_fastly_body, SdkBody.bytes, SdkBody.contentBytes, Body.fromBytes,
      Body.new, Body.into_bytes]

/-- Witness for C5 (amended) at concrete buffered and streaming bodies. -/
theorem c5_to_native_witness :
    ((SdkBody.buffered [7]).bytes = some [7]
      ∧ to_fastly_body (.buffered [7]) = Body.fromBytes [7])
    ∧ ((SdkBody.streaming [7]).bytes = none
      ∧ to_fastly_body (.streaming [7]) = Body.new) :=
  ⟨⟨rfl, (c5_to_native_available_or_empty (.buffered [7])).1 [7] rfl⟩,
   ⟨rfl, (c5_to_native_available_or_empty (.streaming [7])).2.1 rfl⟩⟩

/-- C3: immediate-failure short-circuit — when submission to the sandbox
fails synchronously, `call` returns the ready future carrying the classified
error, never building a poll bridge, and running that future issues zero
polls. -/
theorem c3_immediate_failure_short_circuit :
    ∀ {H : Type} (send_async : Request → Backend → SendAsyncResult H)
      (conn : FastlyHttpConnector) (request : HttpRequest SdkBody)
      (req : Request) (error : SendError),
      Request.from_http_request request = some req →
      send_async req conn.backend = .err error →
      FastlyHttpConnector.call send_async conn request =
        some (.ready (.error (into_connector_error error)))
      ∧ ∀ (pollH : H → PollResult H) (fuel : Nat),
          CallFuture.run pollH fuel
              (.ready (.error (into_connector_error error)) : CallFuture H) =
            some (.error (into_connector_error error), 0) := by
  intro H send_async conn request req error hconv hsend
  constructor
  · simp [FastlyHttpConnector.call, hconv, hsend]
  · intro pollH fuel
    rfl

/-- Witness for C3: a connector whose submission is refused synchronously
returns the classified I/O error with zero polls. -/
theorem c3_immediate_failure_witness :
    FastlyHttpConnector.call
        (fun _ _ => (.err ⟨.ConnectionRefused⟩ : SendAsyncResult Unit))
        ⟨⟨"origin"⟩⟩ ⟨"GET", "/status", [], .buffered [], true⟩ =
      some (.ready (.error (into_connector_error ⟨.ConnectionRefused⟩)))
    ∧ CallFuture.run (fun _ : Unit => PollResult.Done (.error ⟨.ConnectionRefused⟩)) 1
        (.ready (.error (into_connector_error ⟨.ConnectionRefused⟩)) : CallFuture Unit) =
      some (.error (into_connector_error ⟨.ConnectionRefused⟩), 0) := by
  have h := @c3_immediate_failure_short_circuit Unit
    (fun _ _ => .err ⟨.ConnectionRefused⟩) ⟨⟨"origin"⟩⟩
    ⟨"GET", "/status", [], .buffered [], true⟩
    ⟨"GET", "/status", [], ⟨[]⟩⟩ ⟨.ConnectionRefused⟩ rfl rfl
  exact ⟨h.1, h.2 _ 1⟩

/-- Concrete request used to witness the header-fidelity theorem. -/
def sampleSmithyRequest : HttpRequest SdkBody :=
  ⟨"GET", "/status", [("a", "1"), ("a", "2")], .buffered [3], true⟩

/-- The native form of `sampleSmithyRequest`. -/
def sampleNativeRequest : Request :=
  ⟨"GET", "/status", [("a", "1"), ("a", "2")], ⟨[3]⟩⟩

/-- Concrete native response used to witness the header-fidelity theorem. -/
def sampleNativeResponse : Response :=
  ⟨200, [("content-type", "text/plain")], ⟨[111, 107]⟩, true⟩

/-- The smithy form of `sampleNativeResponse`. -/
def sampleSmithyResponse : HttpResponse :=
  ⟨200, [("content-type", "text/plain")], .buffered [111, 107]⟩

/-- C6: header/status fidelity — a successful request conversion preserves
method, URI and the ordered header multimap exactly, and a successful
response conversion preserves status code and the ordered header multimap
exactly. -/
theorem c6_header_status_fidelity :
    (∀ (request : HttpRequest SdkBody) (native : Request),
        Request.from_http_request request = some native →
        native.method = request.method ∧ native.uri = request.uri ∧
          native.headers = request.headers)
    ∧ (∀ (response : Response) (out : HttpResponse),
        into_http_response response = some out →
        out.status = response.status ∧ out.headers = response.headers) := by
  constructor
  · intro request native h
    simp [Request.from_http_request, HttpRequest.try_into_http1x, Request.ofHttp1x,
      HttpRequest.map] at h
    obtain ⟨-, h2⟩ := h
    subst h2
    exact ⟨rfl, rfl, rfl⟩
  · intro response out h
    simp [into_http_response] at h
    obtain ⟨-, h2⟩ := h
    subst h2
    exact ⟨rfl, rfl⟩

/-- Witness for C6 at a concrete request with duplicate header keys and a
concrete response. -/
theorem c6_header_status_witness :
    (Request.from_http_request sampleSmithyRequest = some sampleNativeRequest
      ∧ sampleNativeRequest.method = sampleSmithyRequest.method
      ∧ sampleNativeRequest.uri = sampleSmithyRequest.uri
      ∧ sampleNativeRequest.headers = sampleSmithyRequest.headers)
    ∧ (into_http_response sampleNativeResponse = some sampleSmithyResponse
      ∧ sampleSmithyResponse.status = sampleNativeResponse.status
      ∧ sampleSmithyResponse.headers = sampleNativeResponse.headers) :=
  ⟨⟨rfl, c6_header_status_fidelity.1 sampleSmithyRequest sampleNativeRequest rfl⟩,
   ⟨rfl, c6_header_status_fidelity.2 sampleNativeResponse sampleSmithyResponse rfl⟩⟩

/-- C7: fatal-on-malformed conversion — a request whose wire representation
cannot be decomposed makes the request converter (and hence `call`) abort by
panic (modelled as `none`), never producing a classified `ConnectorError`;
symmetrically for a native response that cannot be re-assembled; under
well-formedness the abort branch is unreachable (the conversion succeeds). -/
theorem c7_fatal_on_malformed :
    (∀ request : HttpRequest SdkBody, request.http1xCompatible = false →
        Request.from_http_request request = none)
    ∧ (∀ request : HttpRequest SdkBody, request.http1xCompatible = true →
        ∃ native, Request.from_http_request request = some native)
    ∧ (∀ response : Response, response.convertible = false →
        into_http_response response = none)
    ∧ (∀ response : Response, response.convertible = true →
        ∃ out, into_http_response response = some out)
    ∧ (∀ (H : Type) (send_async : Request → Backend → SendAsyncResult H)
        (conn : FastlyHttpConnector) (request : HttpRequest SdkBody),
        request.http1xCompatible = false →
        FastlyHttpConnector.call send_async conn request = none) := by
  refine ⟨?_, ?_, ?_, ?_, ?_⟩
  · intro request h
    simp [Request.from_http_request, HttpRequest.try_into_http1x, HttpRequest.map, h]
  · intro request h
    refine ⟨⟨request.method, request.uri, request.headers, to_fastly_body request.body⟩, ?_⟩
    simp [Request.from_http_request, HttpRequest.try_into_http1x, HttpRequest.map, h,
      Request.ofHttp1x]
  · intro response h
    simp [into_http_response, h]
  · intro response h
    refine ⟨⟨response.status, response.headers, to_sdk_body response.body⟩, ?_⟩
    simp [into_http_response, h]
  · intro H send_async conn request h
    have hnone : Request.from_http_request request = none := by
      simp [Request.from_http_request, HttpRequest.try_into_http1x, HttpRequest.map, h]
    simp [FastlyHttpConnector.call, hnone]

/-- Witness for C7 at a concrete malformed request and response and a
concrete well-formed pair. -/
theorem c7_fatal_on_malformed_witness :
    Request.from_http_request ⟨"GET", "/status", [], .buffered [], false⟩ = none
    ∧ (∃ native, Request.from_http_request ⟨"GET", "/status", [], .buffered [], true⟩ =
        some native)
    ∧ into_http_response ⟨200, [], ⟨[]⟩, false⟩ = none
    ∧ (∃ out, into_http_response ⟨200, [], ⟨[]⟩, true⟩ = some out)
    ∧ FastlyHttpConnector.call
        (fun _ _ => (.err ⟨.ConnectionRefused⟩ : SendAsyncResult Unit)) ⟨⟨"origin"⟩⟩
        ⟨"GET", "/status", [], .buffered [], false⟩ = none :=
  ⟨c7_fatal_on_malformed.1 ⟨"GET", "/status", [], .buffered [], false⟩ rfl,
   c7_fatal_on_malformed.2.1 ⟨"GET", "/status", [], .buffered [], true⟩ rfl,
   c7_fatal_on_malformed.2.2.1 ⟨200, [], ⟨[]⟩, false⟩ rfl,
   c7_fatal_on_malformed.2.2.2.1 ⟨200, [], ⟨[]⟩, true⟩ rfl,
   c7_fatal_on_malformed.2.2.2.2 Unit (fun _ _ => .err ⟨.ConnectionRefused⟩) ⟨⟨"origin"⟩⟩
     ⟨"GET", "/status", [], .buffered [], false⟩ rfl⟩

/-- C8: the client facade's `http_connector` ignores both the settings and
runtime-components arguments and returns a freshly constructed connector
carrying exactly the facade's own backend identity; the facade itself is
never changed (the operation is a pure function of the facade). -/
theorem c8_client_facade_connector :
    ∀ (client : FastlyHttpClient) (s s' : HttpConnectorSettings)
      (r r' : RuntimeComponents),
      client.http_connector s r = { backend := client.backend }
      ∧ (client.http_connector s r).backend = client.backend
      ∧ client.http_connector s r = client.http_connector s' r' :=
  fun _ _ _ _ _ => ⟨rfl, rfl, rfl⟩

/-- C9: polling the bridge again after it produced its terminal result
panics — a completing poll leaves the handle slot empty, and the next poll's
`take().unwrap()` fails on the empty slot (modelled as `none`). -/
theorem c9_repoll_after_ready_panics :
    ∀ (H : Type) (pollH : H → PollResult H) (f : ResponseFuture H)
      (step : StepOutcome H) (r : Except SendError Response),
      f.poll pollH = some step → step.output = .Ready r →
      step.state.pending_request = none ∧ step.state.poll pollH = none := by
  intro H pollH f step r hpoll hout
  obtain ⟨slot⟩ := f
  cases slot with
  | none => simp [ResponseFuture.poll] at hpoll
  | some pending =>
    cases hp : pollH pending with
    | Done result =>
      simp only [ResponseFuture.poll, hp] at hpoll
      obtain rfl := Option.some.inj hpoll
      exact ⟨rfl, rfl⟩
    | Pending pending' =>
      simp only [ResponseFuture.poll, hp] at hpoll
      obtain rfl := Option.some.inj hpoll
      simp at hout

/-- Witness for C9: a handle that completes on the first poll, whose bridge
then panics on a second poll. -/
theorem c9_repoll_witness :
    (ResponseFuture.poll (fun _ : Unit => PollResult.Done (.error ⟨.DnsTimeout⟩)) ⟨some ()⟩ =
      some ⟨.Ready (.error ⟨.DnsTimeout⟩), ⟨none⟩, none⟩)
    ∧ (ResponseFuture.poll (fun _ : Unit => PollResult.Done (.error ⟨.DnsTimeout⟩))
        ⟨none⟩ = none) :=
  ⟨rfl,
   (c9_repoll_after_ready_panics Unit (fun _ => .Done (.error ⟨.DnsTimeout⟩)) ⟨some ()⟩
     ⟨.Ready (.error ⟨.DnsTimeout⟩), ⟨none⟩, none⟩ (.error ⟨.DnsTimeout⟩) rfl rfl).2⟩

/-- C10: if the spawned task never sends on the one-shot channel, the
caller-visible future still resolves — to a `ConnectorError` built with the
I/O constructor — and in every case the awaited result is either a response
or a classified error. -/
theorem c10_channel_drop_resolves_io :
    awaitConnectorResult .err = .error (.ioError .recv)
    ∧ (ConnectorError.ioError .recv).eclass = .IoFailure
    ∧ (∀ r : RecvResult (Except ConnectorError HttpResponse),
        (∃ resp, awaitConnectorResult r = .ok resp) ∨
        (∃ e, awaitConnectorResult r = .error e)) := by
  refine ⟨rfl, rfl, ?_⟩
  intro r
  match r with
  | .ok (.ok resp) => exact Or.inl ⟨resp, rfl⟩
  | .ok (.error e) => exact Or.inr ⟨e, rfl⟩
  | .err => exact Or.inr ⟨.ioError .recv, rfl⟩
